import Mathlib

/-!
Verification development for the BigModel WSI tiling pipeline
(`DataPipe/pipeline.py`): a shallow embedding of `generate_tiles`,
`process_one_slide`, `main`'s pre-check, `prepare_single_slide_dataset`
and `TileEncodingDataset.__getitem__`, with theorems about tile
filtering, per-tile failure handling, resume short-circuiting,
coordinate conversion and filename round-trips.
-/

namespace BigModel

/-! ## Coordinate conversion

`process_one_slide` computes
`tile_locations = (scale * rel_tile_locations + origin).astype(int)`.
NumPy's `astype(int)` on a float array is a C cast: truncation toward
zero. We model scalars as rationals. -/

/-- NumPy `astype(int)` on a float value: truncation toward zero
(floor for nonnegative values, ceiling for negative ones). -/
def astypeInt (q : ℚ) : ℤ := if 0 ≤ q then ⌊q⌋ else ⌈q⌉

/-- One coordinate of `(scale * rel_tile_locations + origin).astype(int)`
from `process_one_slide` (pipeline.py line 218). -/
def level0Coord (scale : ℚ) (rel : ℤ) (origin : ℤ) : ℤ :=
  astypeInt (scale * (rel : ℚ) + (origin : ℚ))

/-! ## `generate_tiles`

The crop itself (`tile_array_2d`) and the two filters
(`ROI_occupancy_filtering`, `check_empty_tiles`) live in collaborator
modules; `generate_tiles` composes their outputs:

  selected = selected & (~empty_tile_bool_mask)
  image_tiles = image_tiles[selected]
  tile_locations = tile_locations[selected]
  occupancies = occupancies[selected]

We model NumPy boolean-mask indexing as `maskFilter` and take the
collaborator outputs (the occupancy-selection mask, the occupancy
values, the empty-tile mask) as inputs. -/

/-- NumPy boolean-mask indexing `a[mask]`: keep the elements of `l`
whose corresponding entry of `mask` is `true`. -/
def maskFilter : List Bool → List β → List β
  | true :: m, b :: l => b :: maskFilter m l
  | false :: m, _ :: l => maskFilter m l
  | _, _ => []

/-- Result record of `generate_tiles`: surviving tile images, their
ROI-local locations, their occupancies, and the discarded count. -/
structure GenTilesResult (α : Type) where
  imageTiles : List α
  tileLocations : List (ℤ × ℤ)
  occupancies : List ℚ
  nDiscarded : ℕ
  deriving Repr

/-- Filtering stage of `generate_tiles` (pipeline.py lines 82–110):
the occupancy selection mask is ANDed with the negated empty-tile
mask, and all three per-tile arrays are indexed by the result. -/
def generateTiles (imageTiles : List α) (tileLocations : List (ℤ × ℤ))
    (occSelected : List Bool) (occupancies : List ℚ)
    (emptyMask : List Bool) : GenTilesResult α :=
  let selected := List.zipWith (fun s e => s && !e) occSelected emptyMask
  { imageTiles := maskFilter selected imageTiles
    tileLocations := maskFilter selected tileLocations
    occupancies := maskFilter selected occupancies
    nDiscarded := selected.count false }

/-! ## `process_one_slide`

External collaborators (the WSI loader, thumbnail writers, the tile
visualizer) are modelled by their outcomes in a `SlideEnv`; per-tile
save failures (`save_image`/`get_tile_info_dict` raising) are a flag
on each surviving tile. The run's observable effects — the CSV file
contents, whether the slide was loaded and tiled, the returned value
or propagated exception — form a `SlideRun`. -/

/-- Data returned by the WSI loading collaborator
(`Load_a_WSI_with_valid_regions`): the ROI scale and level-0 origin. -/
structure LoadedWSI where
  scale : ℚ
  originY : ℤ
  originX : ℤ
  deriving Repr, DecidableEq

/-- A tile surviving `generate_tiles` filtering, as seen by the save
loop: its ROI-local location, its occupancy, and whether saving it
(the body of the `try`) raises. -/
structure SurvTile where
  relY : ℤ
  relX : ℤ
  occupancy : ℚ
  saveFails : Bool
  deriving Repr, DecidableEq

/-- Modelled from the spec: `get_tile_descriptor` (in the missing
`WSI_tools` module) derives a tile identifier string from the tile's
level-0 coordinates, tile files being "named by coordinate, e.g.
`<x>x_<y>y.png`". -/
def getTileDescriptor (loc : ℤ × ℤ) : String :=
  toString loc.2 ++ "x_" ++ toString loc.1 ++ "y"

/-- A manifest row of `dataset.csv`: one record per successfully
saved tile (slide id, level-0 location, occupancy). -/
structure TileRow where
  slideId : String
  locY : ℤ
  locX : ℤ
  occupancy : ℚ
  deriving Repr, DecidableEq

/-- Modelled from the spec: `get_tile_info_dict` (in the missing
`WSI_tools` module) builds the manifest record for one tile from the
loaded sample, the tile's occupancy and its level-0 location. -/
def mkTileRow (slideId : String) (loc : ℤ × ℤ) (occ : ℚ) : TileRow :=
  { slideId := slideId, locY := loc.1, locX := loc.2, occupancy := occ }

/-- The level-0 location of a surviving tile, as computed at
pipeline.py line 218. -/
def tileLoc (w : LoadedWSI) (t : SurvTile) : ℤ × ℤ :=
  (level0Coord w.scale t.relY w.originY, level0Coord w.scale t.relX w.originX)

/-- Accumulator state of the save loop: the failure counter, the data
rows written to `dataset.csv`, and the rows written to
`failed_tiles.csv`. -/
structure SaveState where
  nFailedTiles : ℕ
  datasetRows : List TileRow
  failedRows : List String
  deriving Repr, DecidableEq

/-- One iteration of the save loop (pipeline.py lines 230–248): the
`try` body builds the tile info and saves the image; on an exception
the counter is bumped and the descriptor appended to
`failed_tiles.csv`; otherwise the manifest row is appended to
`dataset.csv`. -/
def saveTileStep (slideId : String) (w : LoadedWSI) (acc : SaveState)
    (t : SurvTile) : SaveState :=
  if t.saveFails then
    { acc with
      nFailedTiles := acc.nFailedTiles + 1
      failedRows := acc.failedRows ++ [getTileDescriptor (tileLoc w t)] }
  else
    { acc with
      datasetRows :=
        acc.datasetRows ++ [mkTileRow slideId (tileLoc w t) t.occupancy] }

/-- The whole save loop over the surviving tiles, starting from empty
CSV files and `n_failed_tiles = 0`. -/
def saveLoop (slideId : String) (w : LoadedWSI) (tiles : List SurvTile) :
    SaveState :=
  tiles.foldl (saveTileStep slideId w) ⟨0, [], []⟩

/-- Environment of one `process_one_slide` call: the sample's id, the
result of `is_already_processed`, the collaborator outcomes (`none` /
`false` meaning the call raises), and the surviving tiles produced by
the tiling step. -/
structure SlideEnv where
  slideId : String
  alreadyProcessed : Bool
  loadResult : Option LoadedWSI
  origThumbOk : Bool
  roiThumbOk : Bool
  survivors : List SurvTile
  visualizeOk : Bool
  deriving Repr

/-- Observable outcome of one `process_one_slide` call. `result` is
the returned slide directory (identified by the slide id) or the
propagated exception; `datasetCsv` / `failedCsv` are the data rows of
the two CSV files, `none` when the file was never created. -/
structure SlideRun where
  result : Except String String
  datasetCsv : Option (List TileRow)
  failedCsv : Option (List String)
  slideLoaded : Bool
  tilingRan : Bool
  nFailedTiles : ℕ
  deriving Repr

/-- `process_one_slide` (pipeline.py lines 113–270). Control flow of
the source: the `is_already_processed` early return; CSV creation
with headers; the loader call; the two thumbnail saves (no exception
handling around them); tiling and the per-tile save loop (the only
`try`/`except`); closing the CSVs; the tile-overlay visualization. -/
def processOneSlide (env : SlideEnv) : SlideRun :=
  if env.alreadyProcessed then
    { result := .ok env.slideId, datasetCsv := none, failedCsv := none
      slideLoaded := false, tilingRan := false, nFailedTiles := 0 }
  else
    match env.loadResult with
    | none =>
        { result := .error "loader raised", datasetCsv := some []
          failedCsv := some [], slideLoaded := false, tilingRan := false
          nFailedTiles := 0 }
    | some w =>
        if !env.origThumbOk then
          { result := .error "save_thumbnail raised", datasetCsv := some []
            failedCsv := some [], slideLoaded := true, tilingRan := false
            nFailedTiles := 0 }
        else if !env.roiThumbOk then
          { result := .error "ROI thumbnail raised", datasetCsv := some []
            failedCsv := some [], slideLoaded := true, tilingRan := false
            nFailedTiles := 0 }
        else
          let s := saveLoop env.slideId w env.survivors
          if env.visualizeOk then
            { result := .ok env.slideId, datasetCsv := some s.datasetRows
              failedCsv := some s.failedRows, slideLoaded := true
              tilingRan := true, nFailedTiles := s.nFailedTiles }
          else
            { result := .error "visualize_tile_locations raised"
              datasetCsv := some s.datasetRows
              failedCsv := some s.failedRows, slideLoaded := true
              tilingRan := true, nFailedTiles := s.nFailedTiles }

/-! ## `main`: orchestrator pre-check

Before processing, `main` iterates the dataset and runs
`assert Path(sample["image_path"]).exists()` (pipeline.py lines
302–304) — note the key `"image_path"`, while `process_one_slide`
loads the file at `sample["image"]` (line 174). -/

/-- A slide sample dictionary as used by `main` and
`process_one_slide`: the `image` path that gets loaded and the
`image_path` entry that `main`'s existence check inspects. -/
structure SlideSample where
  slideId : String
  image : String
  imagePathKey : String
  deriving Repr, DecidableEq

/-- The existence-assertion loop of `main` (pipeline.py lines
302–304): the first sample whose `image_path` does not exist raises
an `AssertionError` naming that path. -/
def assertAllExist (pathExists : String → Bool) :
    List SlideSample → Except String Unit
  | [] => .ok ()
  | s :: rest =>
      if pathExists s.imagePathKey then assertAllExist pathExists rest
      else .error s.imagePathKey

/-- `main`'s slide sweep: run the existence assertions, then process
every slide in order (`β` abstracts one slide's processing result). -/
def mainModel (pathExists : String → Bool) (process : SlideSample → β)
    (samples : List SlideSample) : Except String (List β) :=
  match assertAllExist pathExists samples with
  | .error e => .error e
  | .ok _ => .ok (samples.map process)

/-! ## `prepare_single_slide_dataset`

After `process_one_slide` returns, it reads back `dataset.csv` and
`failed_tiles.csv` and runs `assert len(dataset_df) > 0` then
`assert len(failed_df) == 0` (pipeline.py lines 382–387). When the
slide was skipped (already processed) the read-back sees the
pre-existing file contents, which we pass in explicitly. -/

/-- The data rows of the slide's `dataset.csv` after the run: the
rows this run wrote, or the pre-existing rows when the run did not
touch the file. -/
def resultingDataset (env : SlideEnv) (existingRows : List TileRow) :
    List TileRow :=
  ((processOneSlide env).datasetCsv).getD existingRows

/-- The records of the slide's `failed_tiles.csv` after the run. -/
def resultingFailed (env : SlideEnv) (existingFailed : List String) :
    List String :=
  ((processOneSlide env).failedCsv).getD existingFailed

/-- `prepare_single_slide_dataset` (pipeline.py lines 341–389):
process the slide, then assert the manifest is non-empty and the
failed-tiles file empty; returns the saved-tile count on success. -/
def prepareSingleSlideDataset (env : SlideEnv)
    (existingRows : List TileRow) (existingFailed : List String) :
    Except String ℕ :=
  match (processOneSlide env).result with
  | .error e => .error e
  | .ok _ =>
      let rows := resultingDataset env existingRows
      if rows.length > 0 then
        if (resultingFailed env existingFailed).length = 0 then
          .ok rows.length
        else .error "AssertionError: failed tiles present"
      else .error "AssertionError: empty dataset"

/-! ## `TileEncodingDataset.__getitem__`: filename parsing

    img_name = os.path.basename(img_path)
    x, y = img_name.split('.png')[0].split('_')
    x, y = int(x.replace('x', '')), int(y.replace('y', ''))

Python strings are modelled as `List Char`; each string operation is
embedded directly. -/

/-- Whether `pat` is an initial segment of `l`. -/
def startsWith : List Char → List Char → Bool
  | [], _ => true
  | _ :: _, [] => false
  | p :: ps, c :: cs => p = c && startsWith ps cs

/-- Python `s.split(sep)[0]` for a non-empty separator: the part of
`s` before the first occurrence of `sep` (all of `s` when `sep` does
not occur). -/
def splitHead (pat : List Char) : List Char → List Char
  | [] => []
  | c :: rest =>
      if startsWith pat (c :: rest) then []
      else c :: splitHead pat rest

/-- Python `s.split(sep)` for a single-character separator. -/
def splitOnChar (sep : Char) : List Char → List (List Char)
  | [] => [[]]
  | c :: rest =>
      if c = sep then [] :: splitOnChar sep rest
      else
        match splitOnChar sep rest with
        | [] => [[c]]
        | h :: t => (c :: h) :: t

/-- Python `s.replace(ch, '')`: drop every occurrence of `ch`. -/
def replaceDrop (ch : Char) (l : List Char) : List Char :=
  l.filter (fun c => !(c = ch))

/-- Numeric value accumulated by reading decimal digits left to
right. -/
def digitsVal (l : List Char) : ℕ :=
  l.foldl (fun a c => 10 * a + (c.toNat - 48)) 0

/-- Python `int(s)` on the digit-string case: all characters are
decimal digits (and there is at least one); otherwise a `ValueError`,
modelled as `none`. -/
def pyInt (l : List Char) : Option ℕ :=
  if l ≠ [] ∧ l.all Char.isDigit then some (digitsVal l) else none

/-- POSIX `os.path.basename`: everything after the last `/`. -/
def pyBasename (l : List Char) : List Char :=
  l.foldl (fun acc c => if c = '/' then [] else acc ++ [c]) []

/-- The coordinate extraction of `TileEncodingDataset.__getitem__`
(pipeline.py lines 412–417): basename, strip from `.png`, split at
`_`, drop the `x`/`y` markers, parse the two integers. A Python
runtime error (wrong number of `_`-parts, non-numeric part) is
`none`. -/
def getitemCoords (imgPath : List Char) : Option (ℕ × ℕ) :=
  let imgName := pyBasename imgPath
  match splitOnChar '_' (splitHead (String.toList ".png") imgName) with
  | [xs, ys] =>
      match pyInt (replaceDrop 'x' xs), pyInt (replaceDrop 'y' ys) with
      | some x, some y => some (x, y)
      | _, _ => none
  | _ => none

/-- Decimal representation of a natural number, digit characters in
the usual order (the model of Python `str(n)` / f-string formatting
for non-negative integers). -/
def natRepr (n : ℕ) : List Char :=
  if h : n < 10 then [Nat.digitChar n]
  else
    have : n / 10 < n := Nat.div_lt_self (by omega) (by omega)
    natRepr (n / 10) ++ [Nat.digitChar (n % 10)]

/-- The tile image filename `"<x>x_<y>y.png"`. -/
def tileFilename (x y : ℕ) : List Char :=
  natRepr x ++ 'x' :: '_' :: natRepr y ++ 'y' :: String.toList ".png"

/-! ## Helper lemmas -/

theorem astypeInt_of_nonneg {q : ℚ} (h : 0 ≤ q) : astypeInt q = ⌊q⌋ := by
  simp [astypeInt, h]

/-! ### Claims C2, C3, C4, C7 -/

/-- C2 (counterexample): the level-0 coordinate computed by
`process_one_slide` is NOT round-to-nearest: with `scale = 3/2`,
relative location `1` and origin `0`, the code stores `1` while the
nearest integer to `3/2` is `2`. -/
theorem claim_C2_counterexample :
    level0Coord (3 / 2) 1 0 ≠
      round ((3 / 2 : ℚ) * ((1 : ℤ) : ℚ) + ((0 : ℤ) : ℚ)) := by
  have h1 : level0Coord (3 / 2) 1 0 = 1 := by
    norm_num [level0Coord, astypeInt]
  have h2 : round ((3 / 2 : ℚ) * ((1 : ℤ) : ℚ) + ((0 : ℤ) : ℚ)) = 2 := by
    norm_num [round_eq]
  rw [h1, h2]
  decide

/-- C2 (amended): the level-0 coordinate stored by
`process_one_slide` equals `scale * relative_location + origin`
converted to an integer by truncation toward zero — for the
nonnegative scales, locations and origins produced by the loader this
is the floor, which lies within one unit below the exact affine
value, not round-to-nearest. -/
theorem claim_C2 (scale : ℚ) (rel origin : ℤ) (hs : 0 ≤ scale)
    (hr : 0 ≤ rel) (ho : 0 ≤ origin) :
    level0Coord scale rel origin = ⌊scale * (rel : ℚ) + (origin : ℚ)⌋ ∧
    scale * (rel : ℚ) + (origin : ℚ) - 1 <
      (level0Coord scale rel origin : ℚ) ∧
    (level0Coord scale rel origin : ℚ) ≤ scale * (rel : ℚ) + (origin : ℚ) := by
  have hq : 0 ≤ scale * (rel : ℚ) + (origin : ℚ) := by positivity
  have heq : level0Coord scale rel origin = ⌊scale * (rel : ℚ) + (origin : ℚ)⌋ :=
    astypeInt_of_nonneg hq
  refine ⟨heq, ?_, ?_⟩
  · rw [heq]
    exact Int.sub_one_lt_floor _
  · rw [heq]
    exact Int.floor_le _

/-- C2 witness: the amended theorem at `scale = 3/2`, `rel = 4`,
`origin = 7` (where the stored coordinate is `⌊13⌋ = 13`). -/
theorem claim_C2_witness :
    (0 : ℚ) ≤ 3 / 2 ∧ (0 : ℤ) ≤ 4 ∧ (0 : ℤ) ≤ 7 ∧
    (level0Coord (3 / 2) 4 7 = ⌊(3 / 2 : ℚ) * ((4 : ℤ) : ℚ) + ((7 : ℤ) : ℚ)⌋ ∧
      (3 / 2 : ℚ) * ((4 : ℤ) : ℚ) + ((7 : ℤ) : ℚ) - 1 <
        (level0Coord (3 / 2) 4 7 : ℚ) ∧
      (level0Coord (3 / 2) 4 7 : ℚ) ≤
        (3 / 2 : ℚ) * ((4 : ℤ) : ℚ) + ((7 : ℤ) : ℚ)) :=
  ⟨by norm_num, by norm_num, by norm_num,
    claim_C2 (3 / 2) 4 7 (by norm_num) (by norm_num) (by norm_num)⟩

/-- C3: when `is_already_processed` holds for the slide's output
directory, `process_one_slide` returns that directory immediately: the
slide is not loaded, no tiling runs, and neither `dataset.csv` nor
`failed_tiles.csv` is created or rewritten, so a resume run leaves
both files untouched. -/
theorem claim_C3 (env : SlideEnv) (h : env.alreadyProcessed = true) :
    (processOneSlide env).result = .ok env.slideId ∧
    (processOneSlide env).datasetCsv = none ∧
    (processOneSlide env).failedCsv = none ∧
    (processOneSlide env).slideLoaded = false ∧
    (processOneSlide env).tilingRan = false := by
  simp [processOneSlide, h]

/-- C3 witness: a concrete already-processed slide environment. -/
theorem claim_C3_witness :
    (SlideEnv.alreadyProcessed
        ⟨"slideA", true, none, true, true, [], true⟩ = true) ∧
    ((processOneSlide ⟨"slideA", true, none, true, true, [], true⟩).result =
        .ok "slideA" ∧
      (processOneSlide ⟨"slideA", true, none, true, true, [], true⟩).datasetCsv =
        none ∧
      (processOneSlide ⟨"slideA", true, none, true, true, [], true⟩).failedCsv =
        none ∧
      (processOneSlide ⟨"slideA", true, none, true, true, [], true⟩).slideLoaded =
        false ∧
      (processOneSlide ⟨"slideA", true, none, true, true, [], true⟩).tilingRan =
        false) :=
  ⟨rfl, claim_C3 ⟨"slideA", true, none, true, true, [], true⟩ rfl⟩

/-- C4 (counterexample): a failure while saving the ROI thumbnail is
fatal, not merely logged: with every other collaborator succeeding,
`process_one_slide` propagates the exception and never reaches the
tiling and persistence steps. -/
theorem claim_C4_counterexample :
    (processOneSlide
        ⟨"slideB", false, some ⟨2, 0, 0⟩, true, false, [], true⟩).tilingRan =
      false ∧
    (processOneSlide
        ⟨"slideB", false, some ⟨2, 0, 0⟩, true, false, [], true⟩).result =
      .error "ROI thumbnail raised" := by
  constructor <;> rfl

/-- C4 (amended): there is no exception handling around the thumbnail
steps of `process_one_slide`: a failure while rendering or saving
either thumbnail propagates out of the call, the slide's tiling and
persistence steps never run, and the two CSV files are left with only
their headers. -/
theorem claim_C4 (env : SlideEnv) (w : LoadedWSI)
    (h1 : env.alreadyProcessed = false) (h2 : env.loadResult = some w)
    (h3 : env.origThumbOk = false ∨ env.roiThumbOk = false) :
    (∃ e, (processOneSlide env).result = .error e) ∧
    (processOneSlide env).tilingRan = false ∧
    (processOneSlide env).datasetCsv = some [] ∧
    (processOneSlide env).failedCsv = some [] := by
  rcases h3 with h3 | h3
  · simp [processOneSlide, h1, h2, h3]
  · cases horig : env.origThumbOk <;>
      simp [processOneSlide, h1, h2, h3, horig]

/-- C4 witness: the amended theorem at a concrete environment whose
original-slide thumbnail save raises. -/
theorem claim_C4_witness :
    (SlideEnv.alreadyProcessed
        ⟨"slideC", false, some ⟨2, 5, 9⟩, false, true, [], true⟩ = false) ∧
    ((∃ e,
        (processOneSlide
            ⟨"slideC", false, some ⟨2, 5, 9⟩, false, true, [], true⟩).result =
          .error e) ∧
      (processOneSlide
          ⟨"slideC", false, some ⟨2, 5, 9⟩, false, true, [], true⟩).tilingRan =
        false ∧
      (processOneSlide
          ⟨"slideC", false, some ⟨2, 5, 9⟩, false, true, [], true⟩).datasetCsv =
        some [] ∧
      (processOneSlide
          ⟨"slideC", false, some ⟨2, 5, 9⟩, false, true, [], true⟩).failedCsv =
        some []) :=
  ⟨rfl,
    claim_C4 ⟨"slideC", false, some ⟨2, 5, 9⟩, false, true, [], true⟩
      ⟨2, 5, 9⟩ rfl rfl (Or.inl rfl)⟩

/-- C7: when zero tiles survive filtering, `process_one_slide` still
completes normally: it returns the slide directory, `dataset.csv`
holds only its header (no data rows), `failed_tiles.csv` is empty and
no exception propagates. -/
theorem claim_C7 (env : SlideEnv) (w : LoadedWSI)
    (h1 : env.alreadyProcessed = false) (h2 : env.loadResult = some w)
    (h3 : env.origThumbOk = true) (h4 : env.roiThumbOk = true)
    (h5 : env.visualizeOk = true) (h6 : env.survivors = []) :
    (processOneSlide env).result = .ok env.slideId ∧
    (processOneSlide env).datasetCsv = some [] ∧
    (processOneSlide env).failedCsv = some [] ∧
    (processOneSlide env).nFailedTiles = 0 := by
  simp [processOneSlide, h1, h2, h3, h4, h5, h6, saveLoop]

/-- C7 witness: a concrete slide run in which every tile was filtered
out. -/
theorem claim_C7_witness :
    (SlideEnv.survivors
        ⟨"slideD", false, some ⟨4, 32, 64⟩, true, true, [], true⟩ = []) ∧
    ((processOneSlide
          ⟨"slideD", false, some ⟨4, 32, 64⟩, true, true, [], true⟩).result =
        .ok "slideD" ∧
      (processOneSlide
          ⟨"slideD", false, some ⟨4, 32, 64⟩, true, true, [], true⟩).datasetCsv =
        some [] ∧
      (processOneSlide
          ⟨"slideD", false, some ⟨4, 32, 64⟩, true, true, [], true⟩).failedCsv =
        some [] ∧
      (processOneSlide
          ⟨"slideD", false, some ⟨4, 32, 64⟩, true, true, [], true⟩).nFailedTiles =
        0) :=
  ⟨rfl,
    claim_C7 ⟨"slideD", false, some ⟨4, 32, 64⟩, true, true, [], true⟩
      ⟨4, 32, 64⟩ rfl rfl rfl rfl rfl rfl⟩

/-! ### Claim C1: the save loop partitions the tiles -/

theorem foldl_saveTileStep (sid : String) (w : LoadedWSI)
    (tiles : List SurvTile) :
    ∀ acc : SaveState,
      tiles.foldl (saveTileStep sid w) acc =
        { nFailedTiles :=
            acc.nFailedTiles + tiles.countP (fun t => t.saveFails)
          datasetRows :=
            acc.datasetRows ++
              (tiles.filter (fun t => !t.saveFails)).map
                (fun t => mkTileRow sid (tileLoc w t) t.occupancy)
          failedRows :=
            acc.failedRows ++
              (tiles.filter (fun t => t.saveFails)).map
                (fun t => getTileDescriptor (tileLoc w t)) } := by
  induction tiles with
  | nil => intro acc; simp
  | cons t ts ih =>
      intro acc
      by_cases h : t.saveFails = true
      · simp [saveTileStep, h, ih, List.countP_cons]
        omega
      · simp only [Bool.not_eq_true] at h
        simp [saveTileStep, h, ih, List.countP_cons]

theorem length_filter_not_add (p : SurvTile → Bool) (l : List SurvTile) :
    (l.filter (fun t => !p t)).length + (l.filter p).length = l.length := by
  induction l with
  | nil => simp
  | cons t ts ih =>
      by_cases h : p t = true
      · simp [h, ← ih]
        omega
      · simp only [Bool.not_eq_true] at h
        simp [h, ← ih]
        omega

/-- C1: in the save loop of `process_one_slide`, every surviving tile
gets exactly one of two outcomes. `dataset.csv` holds exactly one row
per tile whose save succeeded, `failed_tiles.csv` exactly one
descriptor per tile whose save raised, the failure counter counts the
latter, no tile is in both files (row counts add up to the number of
tiles), and the per-tile exceptions never abort the slide: the call
still returns the slide directory. -/
theorem claim_C1 (env : SlideEnv) (w : LoadedWSI)
    (h1 : env.alreadyProcessed = false) (h2 : env.loadResult = some w)
    (h3 : env.origThumbOk = true) (h4 : env.roiThumbOk = true)
    (h5 : env.visualizeOk = true) :
    (processOneSlide env).datasetCsv =
      some ((env.survivors.filter (fun t => !t.saveFails)).map
        (fun t => mkTileRow env.slideId (tileLoc w t) t.occupancy)) ∧
    (processOneSlide env).failedCsv =
      some ((env.survivors.filter (fun t => t.saveFails)).map
        (fun t => getTileDescriptor (tileLoc w t))) ∧
    (processOneSlide env).nFailedTiles =
      env.survivors.countP (fun t => t.saveFails) ∧
    (env.survivors.filter (fun t => !t.saveFails)).length +
        (env.survivors.filter (fun t => t.saveFails)).length =
      env.survivors.length ∧
    (processOneSlide env).result = .ok env.slideId := by
  have hloop := foldl_saveTileStep env.slideId w env.survivors ⟨0, [], []⟩
  refine ⟨?_, ?_, ?_, length_filter_not_add _ _, ?_⟩ <;>
    simp [processOneSlide, h1, h2, h3, h4, h5, saveLoop, hloop]

/-- C1 witness: a concrete slide with one succeeding and one failing
tile: the succeeding tile's row lands in `dataset.csv`, the failing
tile's descriptor in `failed_tiles.csv`, the counter is 1 and the
slide completes. -/
theorem claim_C1_witness :
    (processOneSlide
        ⟨"slideE", false, some ⟨2, 10, 20⟩, true, true,
          [⟨3, 4, 1/2, false⟩, ⟨5, 6, 3/4, true⟩], true⟩).datasetCsv =
      some ([⟨3, 4, 1/2, false⟩, ⟨5, 6, 3/4, true⟩].filter
          (fun t => !t.saveFails) |>.map
        (fun t => mkTileRow "slideE" (tileLoc ⟨2, 10, 20⟩ t) t.occupancy)) ∧
    (processOneSlide
        ⟨"slideE", false, some ⟨2, 10, 20⟩, true, true,
          [⟨3, 4, 1/2, false⟩, ⟨5, 6, 3/4, true⟩], true⟩).failedCsv =
      some ([⟨3, 4, 1/2, false⟩, ⟨5, 6, 3/4, true⟩].filter
          (fun t => t.saveFails) |>.map
        (fun t => getTileDescriptor (tileLoc ⟨2, 10, 20⟩ t))) ∧
    (processOneSlide
        ⟨"slideE", false, some ⟨2, 10, 20⟩, true, true,
          [⟨3, 4, 1/2, false⟩, ⟨5, 6, 3/4, true⟩], true⟩).nFailedTiles =
      ([⟨3, 4, 1/2, false⟩, ⟨5, 6, 3/4, true⟩] : List SurvTile).countP
        (fun t => t.saveFails) ∧
    (([⟨3, 4, 1/2, false⟩, ⟨5, 6, 3/4, true⟩] : List SurvTile).filter
          (fun t => !t.saveFails)).length +
        (([⟨3, 4, 1/2, false⟩, ⟨5, 6, 3/4, true⟩] : List SurvTile).filter
          (fun t => t.saveFails)).length =
      ([⟨3, 4, 1/2, false⟩, ⟨5, 6, 3/4, true⟩] : List SurvTile).length ∧
    (processOneSlide
        ⟨"slideE", false, some ⟨2, 10, 20⟩, true, true,
          [⟨3, 4, 1/2, false⟩, ⟨5, 6, 3/4, true⟩], true⟩).result =
      .ok "slideE" :=
  claim_C1
    ⟨"slideE", false, some ⟨2, 10, 20⟩, true, true,
      [⟨3, 4, 1/2, false⟩, ⟨5, 6, 3/4, true⟩], true⟩
    ⟨2, 10, 20⟩ rfl rfl rfl rfl rfl

/-! ### Claim C6: the orchestrator's existence pre-check -/

theorem assertAllExist_ok_iff (pathExists : String → Bool) :
    ∀ samples : List SlideSample,
      (assertAllExist pathExists samples = .ok () ↔
        ∀ s ∈ samples, pathExists s.imagePathKey = true)
  | [] => by simp [assertAllExist]
  | s :: rest => by
      by_cases h : pathExists s.imagePathKey = true
      · simp [assertAllExist, h, assertAllExist_ok_iff pathExists rest]
      · simp [assertAllExist, h]

theorem assertAllExist_error (pathExists : String → Bool) :
    ∀ samples : List SlideSample, ∀ s ∈ samples,
      pathExists s.imagePathKey = false →
      ∃ p, assertAllExist pathExists samples = .error p ∧
        pathExists p = false
  | [], _, hs, _ => nomatch hs
  | s₀ :: rest, s, hs, hmiss => by
      by_cases h : pathExists s₀.imagePathKey = true
      · cases hs with
        | head =>
            rw [h] at hmiss
            cases hmiss
        | tail _ hs2 =>
            have ⟨p, hp, hpe⟩ :=
              assertAllExist_error pathExists rest s hs2 hmiss
            exact ⟨p, by simp [assertAllExist, h, hp], hpe⟩
      · simp only [Bool.not_eq_true] at h
        exact ⟨s₀.imagePathKey, by simp [assertAllExist, h], h⟩

/-- C6 (counterexample): `main`'s pre-check inspects the
`"image_path"` key, not the `"image"` key that `process_one_slide`
loads: for a sample whose `image_path` exists but whose `image` file
is missing, `main` raises nothing and proceeds to process the slide,
so it does not fail fast on a missing referenced source image. -/
theorem claim_C6_counterexample :
    mainModel (fun p => p == "slides/a.svs") (fun s => s.slideId)
        [⟨"s1", "slides/missing.svs", "slides/a.svs"⟩] =
      .ok ["s1"] ∧
    (fun p => p == "slides/a.svs") "slides/missing.svs" = false := by
  constructor <;> rfl

/-- C6 (amended): before processing any slide, `main` verifies that
the file named by every sample's `image_path` entry exists: it
processes the slides iff all those paths exist, and when some
`image_path` is missing it raises (naming a missing path) before any
slide is processed. The `image` path that `process_one_slide`
actually loads is not the key being checked. -/
theorem claim_C6 (pathExists : String → Bool) (process : SlideSample → β)
    (samples : List SlideSample) :
    (mainModel pathExists process samples = .ok (samples.map process) ↔
      ∀ s ∈ samples, pathExists s.imagePathKey = true) ∧
    (∀ s ∈ samples, pathExists s.imagePathKey = false →
      ∃ p, mainModel pathExists process samples = .error p ∧
        pathExists p = false) := by
  constructor
  · rw [← assertAllExist_ok_iff pathExists samples]
    unfold mainModel
    cases h : assertAllExist pathExists samples with
    | error e => simp [h]
    | ok u => cases u; simp [h]
  · intro s hs hmiss
    have ⟨p, hp, hpe⟩ := assertAllExist_error pathExists samples s hs hmiss
    exact ⟨p, by simp [mainModel, hp], hpe⟩

/-- C6 witness: the amended theorem at a concrete sample list with
one existing and one missing `image_path`, projecting the fail-fast
part. -/
theorem claim_C6_witness :
    (⟨"s2", "slides/b.svs", "slides/gone.svs"⟩ : SlideSample) ∈
        [(⟨"s1", "slides/a.svs", "slides/a.svs"⟩ : SlideSample),
          ⟨"s2", "slides/b.svs", "slides/gone.svs"⟩] ∧
    (fun p => p == "slides/a.svs") "slides/gone.svs" = false ∧
    (∃ p,
      mainModel (fun p => p == "slides/a.svs") (fun s => s.slideId)
          [⟨"s1", "slides/a.svs", "slides/a.svs"⟩,
            ⟨"s2", "slides/b.svs", "slides/gone.svs"⟩] =
        .error p ∧
      (fun p => p == "slides/a.svs") p = false) :=
  ⟨by decide, rfl,
    (claim_C6 (fun p => p == "slides/a.svs") (fun s => s.slideId)
          [⟨"s1", "slides/a.svs", "slides/a.svs"⟩,
            ⟨"s2", "slides/b.svs", "slides/gone.svs"⟩]).2
      ⟨"s2", "slides/b.svs", "slides/gone.svs"⟩ (by decide) rfl⟩

/-! ### Claim C9: the post-processing assertions -/

/-- C9: after a completed `process_one_slide` run,
`prepare_single_slide_dataset` raises an `AssertionError` whenever the
resulting `dataset.csv` has zero data rows or `failed_tiles.csv` has a
record, and returns normally (with the saved-tile count) iff the
manifest is non-empty and no tile failed. -/
theorem claim_C9 (env : SlideEnv) (existingRows : List TileRow)
    (existingFailed : List String) (d : String)
    (h : (processOneSlide env).result = .ok d) :
    (prepareSingleSlideDataset env existingRows existingFailed =
        .ok (resultingDataset env existingRows).length ↔
      resultingDataset env existingRows ≠ [] ∧
        resultingFailed env existingFailed = []) ∧
    (resultingDataset env existingRows = [] ∨
        resultingFailed env existingFailed ≠ [] →
      ∃ msg, prepareSingleSlideDataset env existingRows existingFailed =
        .error msg) := by
  unfold prepareSingleSlideDataset
  rw [h]
  by_cases hrows : resultingDataset env existingRows = []
  · simp [hrows]
  · have hlen : 0 < (resultingDataset env existingRows).length :=
      List.length_pos.mpr hrows
    by_cases hfail : resultingFailed env existingFailed = []
    · simp [hrows, hfail, hlen]
    · have : (resultingFailed env existingFailed).length ≠ 0 := by
        simpa [List.length_eq_zero] using hfail
      simp only [hlen, if_pos, this, if_neg]
      simp [hrows, hfail]

/-- C9 witness: a concrete completed run with one saved tile and no
failed tiles, where `prepare_single_slide_dataset` returns normally. -/
theorem claim_C9_witness :
    ((processOneSlide
        ⟨"slideF", false, some ⟨2, 0, 0⟩, true, true,
          [⟨1, 2, 1/2, false⟩], true⟩).result = .ok "slideF") ∧
    ((prepareSingleSlideDataset
          ⟨"slideF", false, some ⟨2, 0, 0⟩, true, true,
            [⟨1, 2, 1/2, false⟩], true⟩ [] [] =
        .ok (resultingDataset
          ⟨"slideF", false, some ⟨2, 0, 0⟩, true, true,
            [⟨1, 2, 1/2, false⟩], true⟩ []).length ↔
      resultingDataset
          ⟨"slideF", false, some ⟨2, 0, 0⟩, true, true,
            [⟨1, 2, 1/2, false⟩], true⟩ [] ≠ [] ∧
        resultingFailed
          ⟨"slideF", false, some ⟨2, 0, 0⟩, true, true,
            [⟨1, 2, 1/2, false⟩], true⟩ [] = []) ∧
    (resultingDataset
        ⟨"slideF", false, some ⟨2, 0, 0⟩, true, true,
          [⟨1, 2, 1/2, false⟩], true⟩ [] = [] ∨
      resultingFailed
        ⟨"slideF", false, some ⟨2, 0, 0⟩, true, true,
          [⟨1, 2, 1/2, false⟩], true⟩ [] ≠ [] →
      ∃ msg, prepareSingleSlideDataset
          ⟨"slideF", false, some ⟨2, 0, 0⟩, true, true,
            [⟨1, 2, 1/2, false⟩], true⟩ [] [] =
        .error msg)) :=
  ⟨rfl,
    claim_C9
      ⟨"slideF", false, some ⟨2, 0, 0⟩, true, true,
        [⟨1, 2, 1/2, false⟩], true⟩ [] [] "slideF" rfl⟩

/-! ### Claims C5 and C10: `generate_tiles` filtering -/

theorem length_maskFilter :
    ∀ (m : List Bool) (l : List β), m.length = l.length →
      (maskFilter m l).length = m.count true
  | [], [], _ => by simp [maskFilter]
  | true :: m, b :: l, h => by
      simp only [List.length_cons, Nat.add_right_cancel_iff] at h
      simp [maskFilter, length_maskFilter m l h, List.count_cons]
  | false :: m, b :: l, h => by
      simp only [List.length_cons, Nat.add_right_cancel_iff] at h
      simp [maskFilter, length_maskFilter m l h, List.count_cons]

theorem mem_maskFilter :
    ∀ (m : List Bool) (l : List β), m.length = l.length → ∀ b : β,
      (b ∈ maskFilter m l ↔
        ∃ (i : ℕ) (h1 : i < m.length) (h2 : i < l.length),
          m.get ⟨i, h1⟩ = true ∧ l.get ⟨i, h2⟩ = b)
  | [], [], _, b => by simp [maskFilter]
  | c :: m, a :: l, h, b => by
      simp only [List.length_cons, Nat.add_right_cancel_iff] at h
      have ih := mem_maskFilter m l h b
      constructor
      · intro hb
        cases c with
        | true =>
            rw [show maskFilter (true :: m) (a :: l) = a :: maskFilter m l
                from rfl] at hb
            rcases List.mem_cons.mp hb with hb | hb
            · exact ⟨0, by simp, by simp, rfl, hb.symm⟩
            · rcases ih.mp hb with ⟨i, h1, h2, hm, hl⟩
              exact ⟨i + 1, by simpa using h1, by simpa using h2, hm, hl⟩
        | false =>
            rw [show maskFilter (false :: m) (a :: l) = maskFilter m l
                from rfl] at hb
            rcases ih.mp hb with ⟨i, h1, h2, hm, hl⟩
            exact ⟨i + 1, by simpa using h1, by simpa using h2, hm, hl⟩
      · rintro ⟨i, h1, h2, hm, hl⟩
        cases i with
        | zero =>
            simp only [List.get] at hm hl
            subst hm hl
            exact List.mem_cons_self _ _
        | succ j =>
            have hj1 : j < m.length := by simpa using h1
            have hj2 : j < l.length := by simpa using h2
            have hmem : b ∈ maskFilter m l :=
              ih.mpr ⟨j, hj1, hj2, hm, hl⟩
            cases c with
            | true => exact List.mem_cons_of_mem _ hmem
            | false => exact hmem

/-- C10: the three arrays returned by `generate_tiles` always have
the same first-dimension length, because all three are indexed by the
same boolean selection mask. -/
theorem claim_C10 (imageTiles : List α) (tileLocations : List (ℤ × ℤ))
    (occSelected : List Bool) (occupancies : List ℚ)
    (emptyMask : List Bool)
    (h1 : occSelected.length = imageTiles.length)
    (h2 : emptyMask.length = imageTiles.length)
    (h3 : tileLocations.length = imageTiles.length)
    (h4 : occupancies.length = imageTiles.length) :
    (generateTiles imageTiles tileLocations occSelected occupancies
        emptyMask).imageTiles.length =
      (generateTiles imageTiles tileLocations occSelected occupancies
        emptyMask).tileLocations.length ∧
    (generateTiles imageTiles tileLocations occSelected occupancies
        emptyMask).tileLocations.length =
      (generateTiles imageTiles tileLocations occSelected occupancies
        emptyMask).occupancies.length := by
  have hsel :
      (List.zipWith (fun s e => s && !e) occSelected emptyMask).length =
        imageTiles.length := by
    rw [List.length_zipWith, h1, h2, min_self]
  constructor
  · rw [show (generateTiles imageTiles tileLocations occSelected occupancies
          emptyMask).imageTiles =
        maskFilter (List.zipWith (fun s e => s && !e) occSelected emptyMask)
          imageTiles from rfl,
      show (generateTiles imageTiles tileLocations occSelected occupancies
          emptyMask).tileLocations =
        maskFilter (List.zipWith (fun s e => s && !e) occSelected emptyMask)
          tileLocations from rfl,
      length_maskFilter _ _ (by omega), length_maskFilter _ _ (by omega)]
  · rw [show (generateTiles imageTiles tileLocations occSelected occupancies
          emptyMask).tileLocations =
        maskFilter (List.zipWith (fun s e => s && !e) occSelected emptyMask)
          tileLocations from rfl,
      show (generateTiles imageTiles tileLocations occSelected occupancies
          emptyMask).occupancies =
        maskFilter (List.zipWith (fun s e => s && !e) occSelected emptyMask)
          occupancies from rfl,
      length_maskFilter _ _ (by omega), length_maskFilter _ _ (by omega)]

/-- C10 witness: a concrete `generate_tiles` call with three tiles,
one rejected by each filter. -/
theorem claim_C10_witness :
    ([true, false, true] : List Bool).length = ([7, 8, 9] : List ℕ).length ∧
    (generateTiles [7, 8, 9] [(0, 0), (0, 1), (1, 0)] [true, false, true]
        [1/2, 0, 3/4] [true, false, false]).imageTiles.length =
      (generateTiles [7, 8, 9] [(0, 0), (0, 1), (1, 0)] [true, false, true]
        [1/2, 0, 3/4] [true, false, false]).tileLocations.length ∧
    (generateTiles [7, 8, 9] [(0, 0), (0, 1), (1, 0)] [true, false, true]
        [1/2, 0, 3/4] [true, false, false]).tileLocations.length =
      (generateTiles [7, 8, 9] [(0, 0), (0, 1), (1, 0)] [true, false, true]
        [1/2, 0, 3/4] [true, false, false]).occupancies.length :=
  ⟨rfl,
    claim_C10 [7, 8, 9] [(0, 0), (0, 1), (1, 0)] [true, false, true]
      [1/2, 0, 3/4] [true, false, false] rfl rfl rfl rfl⟩

/-- C5: a generated tile survives `generate_tiles` iff the Foreground
Filter selected it AND the Empty-Tile Filter did not flag it: its
(distinct) location appears in the returned locations exactly when its
occupancy-selection entry is `true` and its empty-tile entry is
`false`. -/
theorem claim_C5 (imageTiles : List α) (tileLocations : List (ℤ × ℤ))
    (occSelected : List Bool) (occupancies : List ℚ)
    (emptyMask : List Bool)
    (h1 : occSelected.length = imageTiles.length)
    (h2 : emptyMask.length = imageTiles.length)
    (h3 : tileLocations.length = imageTiles.length)
    (hnd : tileLocations.Nodup) (i : ℕ) (hi : i < imageTiles.length) :
    tileLocations.get ⟨i, by rw [h3]; exact hi⟩ ∈
        (generateTiles imageTiles tileLocations occSelected occupancies
          emptyMask).tileLocations ↔
      occSelected.get ⟨i, by rw [h1]; exact hi⟩ = true ∧
        emptyMask.get ⟨i, by rw [h2]; exact hi⟩ = false := by
  have hsel :
      (List.zipWith (fun s e => s && !e) occSelected emptyMask).length =
        imageTiles.length := by
    rw [List.length_zipWith, h1, h2, min_self]
  have hmem := mem_maskFilter
    (List.zipWith (fun s e => s && !e) occSelected emptyMask)
    tileLocations (by rw [hsel, h3])
    (tileLocations.get ⟨i, by rw [h3]; exact hi⟩)
  rw [show (generateTiles imageTiles tileLocations occSelected occupancies
        emptyMask).tileLocations =
      maskFilter (List.zipWith (fun s e => s && !e) occSelected emptyMask)
        tileLocations from rfl, hmem]
  constructor
  · rintro ⟨j, hj1, hj2, hm, hl⟩
    have hij : (⟨j, hj2⟩ : Fin tileLocations.length) =
        ⟨i, by rw [h3]; exact hi⟩ := (hnd.get_inj_iff).mp hl
    have hji : j = i := by
      simpa using congrArg Fin.val hij
    subst hji
    rw [List.get_zipWith] at hm
    rcases Bool.and_eq_true_iff.mp hm with ⟨hs, he⟩
    exact ⟨by simpa using hs, by simpa using he⟩
  · rintro ⟨hs, he⟩
    refine ⟨i, by rw [hsel]; exact hi, by rw [h3]; exact hi, ?_, rfl⟩
    rw [List.get_zipWith]
    refine Bool.and_eq_true_iff.mpr ⟨by simpa using hs, by simpa using he⟩

/-- C5 witness: in the concrete three-tile call, the tile kept by
both filters survives. -/
theorem claim_C5_witness :
    ([(0, 0), (0, 1), (1, 0)] : List (ℤ × ℤ)).Nodup ∧
    (([(0, 0), (0, 1), (1, 0)] : List (ℤ × ℤ)).get ⟨2, by decide⟩ ∈
        (generateTiles [7, 8, 9] [(0, 0), (0, 1), (1, 0)]
          [true, false, true] [1/2, 0, 3/4]
          [true, false, false]).tileLocations ↔
      ([true, false, true] : List Bool).get ⟨2, by decide⟩ = true ∧
        ([true, false, false] : List Bool).get ⟨2, by decide⟩ = false) :=
  ⟨by decide,
    claim_C5 [7, 8, 9] [(0, 0), (0, 1), (1, 0)] [true, false, true]
      [1/2, 0, 3/4] [true, false, false] rfl rfl rfl (by decide) 2
      (by decide)⟩

/-! ### Claim C8: filename coordinate round-trip -/

theorem startsWith_self : ∀ l : List Char, startsWith l l = true
  | [] => rfl
  | c :: cs => by simp [startsWith, startsWith_self cs]

theorem splitHead_png :
    ∀ l : List Char, (∀ c ∈ l, c ≠ '.') →
      splitHead ['.', 'p', 'n', 'g'] (l ++ ['.', 'p', 'n', 'g']) = l
  | [], _ => rfl
  | c :: l, h => by
      have hc : c ≠ '.' := h c (List.mem_cons_self c l)
      have hsw : startsWith ['.', 'p', 'n', 'g']
          (c :: (l ++ ['.', 'p', 'n', 'g'])) = false := by
        simp [startsWith, Ne.symm hc]
      have hrest := splitHead_png l (fun a ha => h a (List.mem_cons_of_mem c ha))
      simp [splitHead, hsw, hrest]

theorem splitOnChar_not_mem (sep : Char) :
    ∀ l : List Char, sep ∉ l → splitOnChar sep l = [l]
  | [], _ => rfl
  | c :: l, h => by
      have hc : ¬(c = sep) := fun e => h (e ▸ List.mem_cons_self c l)
      have hrest :=
        splitOnChar_not_mem sep l (fun hm => h (List.mem_cons_of_mem c hm))
      simp [splitOnChar, hc, hrest]

theorem splitOnChar_append (sep : Char) :
    ∀ a : List Char, ∀ b : List Char, sep ∉ a → sep ∉ b →
      splitOnChar sep (a ++ sep :: b) = [a, b]
  | [], b, _, hb => by
      simp [splitOnChar, splitOnChar_not_mem sep b hb]
  | c :: a, b, ha, hb => by
      have hc : ¬(c = sep) := fun e => ha (e ▸ List.mem_cons_self c a)
      have hrest := splitOnChar_append sep a b
        (fun hm => ha (List.mem_cons_of_mem c hm)) hb
      simp [splitOnChar, hc, hrest]

theorem replaceDrop_append_self (ch : Char) (l : List Char)
    (h : ∀ c ∈ l, c ≠ ch) : replaceDrop ch (l ++ [ch]) = l := by
  rw [replaceDrop, List.filter_append]
  have h1 : List.filter (fun c => !(c = ch)) [ch] = [] := by simp
  have h2 : List.filter (fun c => !(c = ch)) l = l :=
    List.filter_eq_self.mpr (fun a ha => by simp [h a ha])
  rw [h1, h2, List.append_nil]

theorem digitChar_isDigit : ∀ d : ℕ, d < 10 → (Nat.digitChar d).isDigit = true := by
  decide

theorem digitChar_toNat : ∀ d : ℕ, d < 10 → (Nat.digitChar d).toNat - 48 = d := by
  decide

theorem isDigit_ne {c : Char} (h : c.isDigit = true) :
    c ≠ 'x' ∧ c ≠ 'y' ∧ c ≠ '_' ∧ c ≠ '.' := by
  refine ⟨fun e => ?_, fun e => ?_, fun e => ?_, fun e => ?_⟩ <;>
    (rw [e] at h; exact absurd h (by decide))

theorem natRepr_digits (n : ℕ) : ∀ c ∈ natRepr n, c.isDigit = true := by
  induction n using Nat.strong_induction_on with
  | _ n ih =>
      intro c hc
      by_cases h : n < 10
      · rw [natRepr, dif_pos h] at hc
        rw [List.mem_singleton] at hc
        rw [hc]
        exact digitChar_isDigit n h
      · rw [natRepr, dif_neg h] at hc
        rcases List.mem_append.mp hc with hc | hc
        · exact ih (n / 10) (Nat.div_lt_self (by omega) (by omega)) c hc
        · rw [List.mem_singleton] at hc
          rw [hc]
          exact digitChar_isDigit (n % 10) (Nat.mod_lt n (by omega))

theorem natRepr_ne_nil (n : ℕ) : natRepr n ≠ [] := by
  by_cases h : n < 10
  · rw [natRepr, dif_pos h]
    simp
  · rw [natRepr, dif_neg h]
    simp

theorem digitsVal_append_digit (l : List Char) (d : Char) :
    digitsVal (l ++ [d]) = 10 * digitsVal l + (d.toNat - 48) := by
  simp [digitsVal, List.foldl_append]

theorem digitsVal_natRepr (n : ℕ) : digitsVal (natRepr n) = n := by
  induction n using Nat.strong_induction_on with
  | _ n ih =>
      by_cases h : n < 10
      · rw [natRepr, dif_pos h]
        have := digitChar_toNat n h
        simp [digitsVal]
        omega
      · rw [natRepr, dif_neg h, digitsVal_append_digit,
          ih (n / 10) (Nat.div_lt_self (by omega) (by omega)),
          digitChar_toNat (n % 10) (Nat.mod_lt n (by omega))]
        omega

theorem pyInt_natRepr (n : ℕ) : pyInt (natRepr n) = some n := by
  rw [pyInt, if_pos, digitsVal_natRepr]
  refine ⟨natRepr_ne_nil n, ?_⟩
  rw [List.all_eq_true]
  exact fun c hc => natRepr_digits n c hc

/-- C8: for all non-negative integers x and y,
`TileEncodingDataset.__getitem__` applied to any image path whose
basename is `"<x>x_<y>y.png"` parses the coordinate pair (x, y) back
out of the filename. -/
theorem claim_C8 (p : List Char) (x y : ℕ)
    (hb : pyBasename p = tileFilename x y) :
    getitemCoords p = some (x, y) := by
  have hxd : ∀ c ∈ natRepr x, c.isDigit = true := natRepr_digits x
  have hyd : ∀ c ∈ natRepr y, c.isDigit = true := natRepr_digits y
  have hfile : tileFilename x y =
      ((natRepr x ++ ['x']) ++ '_' :: (natRepr y ++ ['y'])) ++
        ['.', 'p', 'n', 'g'] := by
    rw [tileFilename]
    simp [List.append_assoc]
  have hpre : ∀ c ∈ (natRepr x ++ ['x']) ++ '_' :: (natRepr y ++ ['y']),
      c ≠ '.' := by
    intro c hc
    rcases List.mem_append.mp hc with hc | hc
    · rcases List.mem_append.mp hc with hc | hc
      · exact (isDigit_ne (hxd c hc)).2.2.2
      · rw [List.mem_singleton] at hc
        rw [hc]
        decide
    · rcases List.mem_cons.mp hc with hc | hc
      · rw [hc]
        decide
      · rcases List.mem_append.mp hc with hc | hc
        · exact (isDigit_ne (hyd c hc)).2.2.2
        · rw [List.mem_singleton] at hc
          rw [hc]
          decide
  have hsplit1 :
      splitHead ['.', 'p', 'n', 'g'] (pyBasename p) =
        (natRepr x ++ ['x']) ++ '_' :: (natRepr y ++ ['y']) := by
    rw [hb, hfile]
    exact splitHead_png _ hpre
  have hnx : ('_' : Char) ∉ natRepr x ++ ['x'] := by
    intro hm
    rcases List.mem_append.mp hm with hm | hm
    · exact (isDigit_ne (hxd '_' hm)).2.2.1 rfl
    · rw [List.mem_singleton] at hm
      cases hm
  have hny : ('_' : Char) ∉ natRepr y ++ ['y'] := by
    intro hm
    rcases List.mem_append.mp hm with hm | hm
    · exact (isDigit_ne (hyd '_' hm)).2.2.1 rfl
    · rw [List.mem_singleton] at hm
      cases hm
  have hsplit2 :
      splitOnChar '_' ((natRepr x ++ ['x']) ++ '_' :: (natRepr y ++ ['y'])) =
        [natRepr x ++ ['x'], natRepr y ++ ['y']] :=
    splitOnChar_append '_' (natRepr x ++ ['x']) (natRepr y ++ ['y']) hnx hny
  have hrx : replaceDrop 'x' (natRepr x ++ ['x']) = natRepr x :=
    replaceDrop_append_self 'x' (natRepr x)
      (fun c hc => (isDigit_ne (hxd c hc)).1)
  have hry : replaceDrop 'y' (natRepr y ++ ['y']) = natRepr y :=
    replaceDrop_append_self 'y' (natRepr y)
      (fun c hc => (isDigit_ne (hyd c hc)).2.1)
  rw [getitemCoords]
  rw [show String.toList ".png" = ['.', 'p', 'n', 'g'] from rfl]
  rw [hsplit1, hsplit2]
  simp only [hrx, hry, pyInt_natRepr]

/-- C8 witness: the file `images/256x_512y.png` parses back to
`(256, 512)`. -/
theorem claim_C8_witness :
    getitemCoords (String.toList "images/256x_512y.png") = some (256, 512) :=
  claim_C8 (String.toList "images/256x_512y.png") 256 512 (by
    have h1 : pyBasename (String.toList "images/256x_512y.png") =
        String.toList "256x_512y.png" := by decide
    have h2 : tileFilename 256 512 = String.toList "256x_512y.png" := by
      rw [tileFilename]
      rw [show natRepr 256 = ['2', '5', '6'] from by
        rw [natRepr, dif_neg (by omega), natRepr, dif_neg (by omega),
          natRepr, dif_pos (by omega)]
        rfl]
      rw [show natRepr 512 = ['5', '1', '2'] from by
        rw [natRepr, dif_neg (by omega), natRepr, dif_neg (by omega),
          natRepr, dif_pos (by omega)]
        rfl]
      rfl
    rw [h1, h2])

end BigModel
